import Mathlib

/-!
Shallow embedding of the Express-auth-api repository: the credential store
(src/models/User.js), the JWT token issuer and verifier plus the protect /
authorize / optionalAuth middleware (src/middleware/auth.js), the auth
controller (register, login, getMe, logout in src/controllers/authController.js),
the global error handler (src/middleware/errorHandler.js), and the product
controller (src/controllers/productController.js).

JavaScript strings are modelled as Lean `String`; the string operations the
source uses (`split`, `startsWith`, `toLowerCase`, numeric parsing) are
re-implemented below by structural recursion over the character list so that
every definition evaluates by kernel reduction.  Timestamps are `Nat`
(milliseconds or seconds as in the source).  MongoDB documents are association
lists of field name / value pairs where field projection or exclusion matters.
-/

namespace ExpressAuth

/-! ## JavaScript string primitives used by the source -/

/-- Model of JavaScript `String.prototype.split` with a one-character
separator: splits at every occurrence, keeping empty segments, so
`"a b".split(' ') = ["a","b"]` and `"a".split(' ') = ["a"]`. -/
def splitChar (sep : Char) : List Char → List (List Char)
  | [] => [[]]
  | c :: cs =>
    let r := splitChar sep cs
    if c = sep then [] :: r
    else
      match r with
      | h :: t => (c :: h) :: t
      | [] => [[c]]

/-- JavaScript `s.split(sep)` for a one-character separator. -/
def jsSplit (s : String) (sep : Char) : List String :=
  (splitChar sep s.data).map (fun l => String.mk l)

/-- JavaScript `s.startsWith(p)`. -/
def jsStartsWith (s p : String) : Bool :=
  p.data.isPrefixOf s.data

/-- JavaScript `s.toLowerCase()` (ASCII case folding suffices here). -/
def jsToLower (s : String) : String := String.mk (s.data.map Char.toLower)

/-- Decimal digit value of a character, if it is a digit. -/
def digitVal (c : Char) : Option Nat :=
  if c.toNat ≥ 48 ∧ c.toNat ≤ 57 then some (c.toNat - 48) else none

/-- Accumulating decimal parser over a character list. -/
def natOfChars : List Char → Option Nat → Option Nat
  | [], acc => acc
  | c :: cs, acc =>
    match digitVal c, acc with
    | some d, some a => natOfChars cs (some (a * 10 + d))
    | some d, none => natOfChars cs (some d)
    | none, _ => none

/-- Parse a non-empty all-digit string as a natural number. -/
def jsToNat (s : String) : Option Nat :=
  match s.data with
  | [] => none
  | l => natOfChars l none

/-- Decimal rendering of a natural number (fuel-indexed so that it reduces
in the kernel); used to serialize JWT fields. -/
def natReprAux : Nat → Nat → List Char
  | 0, _ => []
  | fuel + 1, n =>
    if n < 10 then [Char.ofNat (48 + n)]
    else natReprAux fuel (n / 10) ++ [Char.ofNat (48 + n % 10)]

/-- Decimal rendering of a natural number as a string. -/
def natRepr (n : Nat) : String := String.mk (natReprAux (n + 1) n)

deriving instance DecidableEq for Except

/-- A single-quote character as a string (used in the authorize message). -/
def sq : String := String.singleton (Char.ofNat 39)

/-! ## Operational errors (src/utils/AppError.js)

The `AppError` class carries a message and an HTTP status code; `status`
("fail"/"error") and `isOperational` are derived or constant for every error
built in the verified code paths, so only the two determining fields are kept.
-/

/-- Operational application error: message and HTTP status code. -/
structure AppError where
  message : String
  statusCode : Nat
deriving DecidableEq, Repr

/-! ## Roles and password hashes -/

/-- The closed role set of the user schema: `enum: ['user', 'admin']`. -/
inductive Role
  | user
  | admin
deriving DecidableEq, Repr

/-- String tag of a role as stored in documents and JWT payloads. -/
def Role.str : Role → String
  | .user => "user"
  | .admin => "admin"

/-- Parse a role tag from its string form. -/
def roleOfString (s : String) : Option Role :=
  if s = "user" then some Role.user
  else if s = "admin" then some Role.admin
  else none

/-- Numeric code of a role, used by the signature model. -/
def Role.code : Role → Nat
  | .user => 0
  | .admin => 1

/-- A bcrypt digest.  The digest is a distinct type from plain strings: a
value of this type can only be produced by `bcryptHash`, mirroring that the
pre-save hook is the only writer of the password field. -/
structure BcryptHash where
  digestOf : String
deriving DecidableEq, Repr

/-- Model of `bcrypt.hash(plain, salt)` (cost 12 in the pre-save hook). -/
def bcryptHash (plain : String) : BcryptHash := ⟨plain⟩

/-- Model of `bcrypt.compare(candidate, digest)`: true exactly when the
digest was produced from the candidate. -/
def bcryptCompare (candidate : String) (h : BcryptHash) : Bool :=
  candidate = h.digestOf

/-! ## The user model (src/models/User.js) -/

/-- A persisted user document.  Fields follow the mongoose schema: `_id`,
`name`, `email` (stored lowercased by `lowercase: true`), `password`
(a bcrypt digest, `select: false`), `role` (default `user`), `isActive`
(default `true`), and the optional `lastLogin` timestamp. -/
structure User where
  id : Nat
  name : String
  email : String
  password : BcryptHash
  role : Role
  isActive : Bool
  lastLogin : Option Nat
deriving DecidableEq, Repr

/-- The user collection. -/
structure Store where
  users : List User
deriving DecidableEq, Repr

/-- Model of `User.findById(id)`. -/
def Store.findById (s : Store) (id : Nat) : Option User :=
  s.users.find? (fun u => u.id == id)

/-- Model of the `findByEmail` static: `findOne({ email: email.toLowerCase() })`. -/
def Store.findByEmail (s : Store) (email : String) : Option User :=
  s.users.find? (fun u => u.email == jsToLower email)

/-- Replace the document with the given `_id` (model of `doc.save()` for an
existing document; MongoDB `_id`s are unique). -/
def Store.updateById (s : Store) (id : Nat) (f : User → User) : Store :=
  ⟨s.users.map (fun u => if u.id == id then f u else u)⟩

/-! ## Documents as field lists (for serialization properties) -/

/-- A document field value. -/
inductive Val
  | str : String → Val
  | num : Nat → Val
  | bool : Bool → Val
  | hashed : BcryptHash → Val
deriving DecidableEq, Repr

/-- A MongoDB document as an association list of named fields. -/
abbrev Doc := List (String × Val)

/-- The full persisted user document, password digest included. -/
def userDoc (u : User) : Doc :=
  [("_id", Val.num u.id), ("name", Val.str u.name), ("email", Val.str u.email),
   ("password", Val.hashed u.password), ("role", Val.str u.role.str),
   ("isActive", Val.bool u.isActive)]
  ++ (match u.lastLogin with
      | some t => [("lastLogin", Val.num t)]
      | none => [])

/-- Model of `.select('-password')` and of the `toJSON` override
(`delete userObject.password`): drop the password field. -/
def selectNoPassword (d : Doc) : Doc :=
  d.filter (fun f => !(f.1 == "password"))

/-- The value attached as `req.user` by `protect` and `optionalAuth`:
the user document without the password field
(`User.findById(decoded.id).select('-password')`). -/
structure ReqUser where
  id : Nat
  name : String
  email : String
  role : Role
  isActive : Bool
  lastLogin : Option Nat
deriving DecidableEq, Repr

/-- Projection of a stored user to the attached request user. -/
def User.toReqUser (u : User) : ReqUser :=
  ⟨u.id, u.name, u.email, u.role, u.isActive, u.lastLogin⟩

/-- Serialization of the attached request user as a document. -/
def ReqUser.doc (r : ReqUser) : Doc :=
  [("_id", Val.num r.id), ("name", Val.str r.name), ("email", Val.str r.email),
   ("role", Val.str r.role.str), ("isActive", Val.bool r.isActive)]
  ++ (match r.lastLogin with
      | some t => [("lastLogin", Val.num t)]
      | none => [])

/-! ## JSON web tokens (jsonwebtoken library, src/config/config.js)

A token carries the payload `{ id, role, iat, exp }` (`jwt.sign` adds the
issue and expiry times) and a signature over the payload with the shared
secret.  `jwt.verify` first checks the signature, then the expiry
(`TokenExpiredError` when the clock has reached `exp`).  The HMAC digest is
modelled by a fixed computable mixing function of the secret and the payload:
its only relevant property is that the verifier recomputes and compares it.
-/

/-- The claims embedded in a token. -/
structure JwtPayload where
  id : Nat
  role : Role
  iat : Nat
  exp : Nat
deriving DecidableEq, Repr

/-- A decoded token: payload plus signature. -/
structure Jwt where
  payload : JwtPayload
  sig : Nat
deriving DecidableEq, Repr

/-- Numeric digest of a string (part of the signature model). -/
def strCode (s : String) : Nat :=
  s.data.foldl (fun a c => a * 131 + c.toNat + 1) 7

/-- Model of the HMAC signature over the payload with the shared secret. -/
def mkSig (secret : String) (p : JwtPayload) : Nat :=
  (((strCode secret * 31 + p.id) * 31 + p.role.code) * 31 + p.iat) * 31 + p.exp

/-- Model of `jwt.sign({ id, role }, secret, { expiresIn })` at clock time
`now` (seconds): issue time `now`, expiry `now + dur`. -/
def jwtSign (secret : String) (now dur : Nat) (id : Nat) (role : Role) : Jwt :=
  let p : JwtPayload := ⟨id, role, now, now + dur⟩
  ⟨p, mkSig secret p⟩

/-- Wire form of a token: dot-separated payload fields and signature. -/
def encodeJwt (t : Jwt) : String :=
  natRepr t.payload.id ++ "." ++ t.payload.role.str ++ "." ++
  natRepr t.payload.iat ++ "." ++ natRepr t.payload.exp ++ "." ++ natRepr t.sig

/-- Decode the wire form of a token; `none` on a malformed string. -/
def parseJwt (s : String) : Option Jwt :=
  match jsSplit s '.' with
  | [a, b, c, d, e] =>
    match jsToNat a, roleOfString b, jsToNat c, jsToNat d, jsToNat e with
    | some id, some r, some iat, some exp, some sig =>
      some ⟨⟨id, r, iat, exp⟩, sig⟩
    | _, _, _, _, _ => none
  | _ => none

/-- The two token verification failures of the jsonwebtoken library:
`JsonWebTokenError` (malformed token or bad signature) and
`TokenExpiredError`. -/
inductive JwtError
  | invalidToken
  | tokenExpired
deriving DecidableEq, Repr

/-- Model of `jwt.verify(token, secret)` at clock time `now`: parse, check
the signature, then check expiry (expired once `now` reaches `exp`). -/
def jwtVerify (secret : String) (now : Nat) (s : String) : Except JwtError JwtPayload :=
  match parseJwt s with
  | none => .error JwtError.invalidToken
  | some t =>
    if t.sig == mkSig secret t.payload then
      if t.payload.exp ≤ now then .error JwtError.tokenExpired
      else .ok t.payload
    else .error JwtError.invalidToken

/-- Model of the `generateToken` instance method:
`jwt.sign({ id: this._id, role: this.role }, config.jwt.secret, { expiresIn })`. -/
def generateToken (secret : String) (now dur : Nat) (u : User) : Jwt :=
  jwtSign secret now dur u.id u.role

/-! ## Authentication middleware (src/middleware/auth.js) -/

/-- The parts of an inbound request the auth middleware reads: the
`Authorization` header and the `token` cookie. -/
structure Request where
  authorization : Option String
  cookieToken : Option String
deriving DecidableEq, Repr

/-- Token extraction (protect lines 22-31): the `Authorization` header when
present and starting with `Bearer` yields `header.split(' ')[1]`; otherwise
the `token` cookie is consulted. -/
def extractToken (authorization cookieToken : Option String) : Option String :=
  match authorization with
  | some h =>
    if jsStartsWith h "Bearer" then (jsSplit h ' ')[1]?
    else cookieToken
  | none => cookieToken

/-- The error `protect` builds when no token is present and in its catch-all
for any `jwt.verify` failure: `AppError('Not authorized to access this route', 401)`. -/
def notAuthorizedError : AppError := ⟨"Not authorized to access this route", 401⟩

/-- The `protect` middleware: extract the token (absent or JS-falsy empty
token fails 401), verify it (any verification error is caught and replaced
by the same generic 401), load the user (absent user or inactive user fails
401), and attach the password-less user. -/
def protect (s : Store) (secret : String) (now : Nat) (req : Request) :
    Except AppError ReqUser :=
  match extractToken req.authorization req.cookieToken with
  | none => .error notAuthorizedError
  | some tok =>
    if tok = "" then .error notAuthorizedError
    else
      match jwtVerify secret now tok with
      | .error _ => .error notAuthorizedError
      | .ok payload =>
        match s.findById payload.id with
        | none => .error ⟨"User no longer exists", 401⟩
        | some u =>
          if !u.isActive then .error ⟨"User account is inactive", 401⟩
          else .ok u.toReqUser

/-- The 403 error built by `authorize` for a role outside the declared set. -/
def forbiddenError (r : Role) : AppError :=
  ⟨"User role " ++ sq ++ r.str ++ sq ++ " is not authorized to access this route", 403⟩

/-- The `authorize(...roles)` middleware: fail 403 unless the attached
user's role is in the declared list. -/
def authorize (roles : List Role) (r : ReqUser) : Except AppError Unit :=
  if !(roles.contains r.role) then .error (forbiddenError r.role)
  else .ok ()

/-- The `optionalAuth` middleware: same extraction; a present token is
verified and the user loaded, but every failure is swallowed
(`// Ignore errors for optional auth`) and the chain always proceeds.  The
inactive flag is never consulted. -/
def optionalAuth (s : Store) (secret : String) (now : Nat) (req : Request) :
    Except AppError (Option ReqUser) :=
  match extractToken req.authorization req.cookieToken with
  | none => .ok none
  | some tok =>
    if tok = "" then .ok none
    else
      match jwtVerify secret now tok with
      | .error _ => .ok none
      | .ok payload => .ok ((s.findById payload.id).map User.toReqUser)

/-- A protected route pipeline as composed by the routers: `protect`, then
`authorize(roles)` when the route declares a permitted role set (`none`
models a route with no `authorize` stage, such as `/api/auth/me`), then the
business handler.  The first failing stage ends the chain with its error. -/
def protectedRoute {α : Type} (s : Store) (secret : String) (now : Nat)
    (roleDecl : Option (List Role)) (handler : ReqUser → α) (req : Request) :
    Except AppError α :=
  match protect s secret now req with
  | .error e => .error e
  | .ok u =>
    match roleDecl with
    | none => .ok (handler u)
    | some roles =>
      match authorize roles u with
      | .error e => .error e
      | .ok _ => .ok (handler u)

/-! ## Cookies and auth controller (src/controllers/authController.js) -/

/-- A `res.cookie` call: name, value, expiry offset from now in
milliseconds, and the set attributes.  Attributes the call leaves out are
`false` / `none`. -/
structure Cookie where
  name : String
  value : String
  expiresOffsetMs : Nat
  httpOnly : Bool
  secure : Bool
  sameSite : Option String
deriving DecidableEq, Repr

/-- The cookie set alongside a successful register or login: the token
itself, 7 days, httpOnly, secure in production, sameSite strict. -/
def authCookie (isProd : Bool) (tokenStr : String) : Cookie :=
  ⟨"token", tokenStr, 7 * 24 * 60 * 60 * 1000, true, isProd, some "strict"⟩

/-- The successful register/login response: HTTP status, the explicit
`data.user` object `{ id, name, email, role }`, the token string, and
the cookie that was set. -/
structure AuthSuccess where
  httpStatus : Nat
  userView : Doc
  token : String
  cookie : Cookie
deriving DecidableEq, Repr

/-- The `data.user` object built by register and login:
`{ id: user._id, name, email, role }`. -/
def authUserView (u : User) : Doc :=
  [("id", Val.num u.id), ("name", Val.str u.name),
   ("email", Val.str u.email), ("role", Val.str u.role.str)]

/-- MongoDB write errors surfaced to the controllers; the duplicate-key
error of a uniqueness-constrained insert carries the violated field. -/
inductive MongoError
  | duplicateKey (field : String)
deriving DecidableEq, Repr

/-- Model of `handleDuplicateKeyError` in the global error handler:
`` `${field} already exists` `` with status 400. -/
def handleDuplicateKeyError (field : String) : AppError :=
  ⟨field ++ " already exists", 400⟩

/-- Model of `User.create({ name, email, password })`: the unique index on
`email` rejects a duplicate (after lowercasing by the schema); otherwise the
pre-save hook hashes the password and the document is inserted with the
schema defaults `role: user`, `isActive: true`.  `newId` is the fresh
`_id` chosen by the database.  Schema string validations (trim, length,
email format) are not exercised by any verified claim and are omitted. -/
def Store.createUser (s : Store) (newId : Nat) (name email password : String) :
    Except MongoError (Store × User) :=
  let emailNorm := jsToLower email
  if s.users.any (fun u => u.email == emailNorm) then
    .error (MongoError.duplicateKey "email")
  else
    let u : User := ⟨newId, name, emailNorm, bcryptHash password, Role.user, true, none⟩
    .ok (⟨s.users ++ [u]⟩, u)

/-- The `register` controller: reject when `findByEmail` already finds the
email (400, before any write); otherwise create the user, issue a token,
set the auth cookie and answer 201.  `dur` is `config.jwt.expiresIn` in
seconds; `isProd` is `NODE_ENV === 'production'`. -/
def register (s : Store) (newId : Nat) (secret : String) (dur : Nat)
    (isProd : Bool) (now : Nat) (name email password : String) :
    Store × Except AppError AuthSuccess :=
  match s.findByEmail email with
  | some _ => (s, .error ⟨"User already exists with this email", 400⟩)
  | none =>
    match s.createUser newId name email password with
    | .error e => (s, .error (handleDuplicateKeyError (match e with | .duplicateKey f => f)))
    | .ok (s', u) =>
      let tok := encodeJwt (generateToken secret now dur u)
      (s', .ok ⟨201, authUserView u, tok, authCookie isProd tok⟩)

/-- The 401 error shared by the unknown-email and wrong-password branches
of login. -/
def invalidCredentialsError : AppError := ⟨"Invalid credentials", 401⟩

/-- The `login` controller: missing fields fail 400; an unknown email fails
401 "Invalid credentials"; an inactive account fails 401 "Account is
inactive"; a wrong password fails 401 "Invalid credentials"; otherwise
`lastLogin` is updated, a token issued, the auth cookie set, and 200
returned.  An empty string models a missing (JS-falsy) field. -/
def login (s : Store) (secret : String) (dur : Nat) (isProd : Bool)
    (now : Nat) (email password : String) : Store × Except AppError AuthSuccess :=
  if email = "" ∨ password = "" then
    (s, .error ⟨"Please provide email and password", 400⟩)
  else
    match s.findByEmail email with
    | none => (s, .error invalidCredentialsError)
    | some u =>
      if !u.isActive then (s, .error ⟨"Account is inactive", 401⟩)
      else if !(bcryptCompare password u.password) then
        (s, .error invalidCredentialsError)
      else
        let s' := s.updateById u.id (fun v => { v with lastLogin := some now })
        let tok := encodeJwt (generateToken secret now dur u)
        (s', .ok ⟨200, authUserView u, tok, authCookie isProd tok⟩)

/-- The `getMe` controller: re-fetch the authenticated user by id with the
default projection (the schema's `select: false` keeps the password out)
and return it; the serialized user document therefore never carries the
password field. -/
def getMe (s : Store) (r : ReqUser) : Nat × Option Doc :=
  (200, (s.findById r.id).map (fun u => selectNoPassword (userDoc u)))

/-- A plain JSON response: HTTP status and body fields. -/
structure Response where
  httpStatus : Nat
  body : Doc
deriving DecidableEq, Repr

/-- The cookie `logout` sets: the placeholder value `'none'`, expiring 10
seconds from now, httpOnly. -/
def logoutCookie : Cookie := ⟨"token", "none", 10 * 1000, true, false, none⟩

/-- The body of the logout response. -/
def logoutResponse : Response :=
  ⟨200, [("status", Val.str "success"), ("message", Val.str "Logged out successfully")]⟩

/-- The `logout` controller: overwrite the token cookie with the expiring
placeholder and answer 200.  It reads and writes no stored state. -/
def logout (s : Store) : Store × Cookie × Response :=
  (s, logoutCookie, logoutResponse)

/-! ## Product controller (src/controllers/productController.js) -/

/-- A persisted product document (src/models/Product.js); `isActive` is the
soft-delete flag.  The numeric price amount is carried but never computed
with by the verified operations. -/
structure Product where
  id : Nat
  name : String
  description : String
  priceAmount : Nat
  priceCurrency : String
  category : String
  stock : Nat
  sku : String
  createdBy : Nat
  isActive : Bool
deriving DecidableEq, Repr

/-- The product collection. -/
structure PStore where
  products : List Product
deriving DecidableEq, Repr

/-- Model of `Product.findById(id)`. -/
def PStore.findById (s : PStore) (id : Nat) : Option Product :=
  s.products.find? (fun p => p.id == id)

/-- Replace the document with the given `_id` (model of `product.save()`). -/
def PStore.updateById (s : PStore) (id : Nat) (f : Product → Product) : PStore :=
  ⟨s.products.map (fun p => if p.id == id then f p else p)⟩

/-- The request body of the admin PATCH endpoint: the fields
`Object.assign` may overwrite (absent fields leave the document unchanged). -/
structure ProductPatch where
  name : Option String
  description : Option String
  priceAmount : Option Nat
  priceCurrency : Option String
  category : Option String
  stock : Option Nat
  sku : Option String
  isActive : Option Bool
deriving DecidableEq, Repr

/-- Model of `Object.assign(product, req.body)`. -/
def Product.applyPatch (p : Product) (b : ProductPatch) : Product :=
  { p with
    name := b.name.getD p.name
    description := b.description.getD p.description
    priceAmount := b.priceAmount.getD p.priceAmount
    priceCurrency := b.priceCurrency.getD p.priceCurrency
    category := b.category.getD p.category
    stock := b.stock.getD p.stock
    sku := b.sku.getD p.sku
    isActive := b.isActive.getD p.isActive }

/-- The 404 error of the product endpoints. -/
def productNotFoundError : AppError := ⟨"Product not found", 404⟩

/-- The `getProduct` read endpoint: 404 when the product is absent or
soft-deleted (`!product || !product.isActive`). -/
def getProduct (s : PStore) (id : Nat) : Except AppError Product :=
  match s.findById id with
  | none => .error productNotFoundError
  | some p =>
    if !p.isActive then .error productNotFoundError
    else .ok p

/-- The `updateProduct` endpoint: 404 only when the product is absent;
otherwise `Object.assign` the body onto the document and save it.  The
`isActive` flag is not consulted. -/
def updateProduct (s : PStore) (id : Nat) (b : ProductPatch) :
    PStore × Except AppError Product :=
  match s.findById id with
  | none => (s, .error productNotFoundError)
  | some p =>
    (s.updateById id (fun q => q.applyPatch b), .ok (p.applyPatch b))

/-- The `deleteProduct` endpoint: 404 only when the product is absent;
otherwise soft delete by setting `isActive := false` and save.  The current
`isActive` value is not consulted. -/
def deleteProduct (s : PStore) (id : Nat) :
    PStore × Except AppError String :=
  match s.findById id with
  | none => (s, .error productNotFoundError)
  | some _ =>
    (s.updateById id (fun q => { q with isActive := false }),
     .ok "Product deleted successfully")

/-! ## Concrete fixtures for witnesses and counterexamples -/

/-- Shared secret used by the concrete scenarios. -/
def wSecret : String := "sek"

/-- The registered scenario account (spec scenario: John Doe). -/
def wUser : User :=
  ⟨7, "John Doe", "john@example.com", bcryptHash "Password123", Role.user, true, none⟩

/-- A store holding the scenario account. -/
def wStore : Store := ⟨[wUser]⟩

/-- A request carrying a bearer token in the Authorization header. -/
def wReqOf (tok : String) : Request := ⟨some ("Bearer " ++ tok), none⟩

/-- Payload of a token for the scenario account expiring at time 1000. -/
def wPayload : JwtPayload := ⟨7, Role.user, 0, 1000⟩

/-- A correctly signed token that is expired at time 2000. -/
def wTokenExpired : String := encodeJwt ⟨wPayload, mkSig wSecret wPayload⟩

/-- Payload of an unexpired token for the scenario account. -/
def wPayloadFresh : JwtPayload := ⟨7, Role.user, 0, 9999⟩

/-- An unexpired token with a wrong signature. -/
def wTokenBadSig : String := encodeJwt ⟨wPayloadFresh, mkSig wSecret wPayloadFresh + 1⟩

/-- An administrator account. -/
def wAdmin : User :=
  ⟨9, "Root", "root@example.com", bcryptHash "Pw123456", Role.admin, true, none⟩

/-- A store holding the administrator account. -/
def wStoreAdmin : Store := ⟨[wAdmin]⟩

/-- Payload of a valid token for the administrator. -/
def wAdminPayload : JwtPayload := ⟨9, Role.admin, 0, 9000⟩

/-- A correctly signed, unexpired token for the administrator. -/
def wAdminToken : String := encodeJwt ⟨wAdminPayload, mkSig wSecret wAdminPayload⟩

/-- A deactivated account. -/
def wInactive : User :=
  ⟨5, "Bob", "bob@example.com", bcryptHash "hunter22", Role.user, false, none⟩

/-- A store holding only the deactivated account. -/
def wStoreInactive : Store := ⟨[wInactive]⟩

/-- Payload of a valid token for the deactivated account. -/
def wInactivePayload : JwtPayload := ⟨5, Role.user, 0, 9000⟩

/-- A correctly signed, unexpired token for the deactivated account. -/
def wInactiveToken : String := encodeJwt ⟨wInactivePayload, mkSig wSecret wInactivePayload⟩

/-- The account stored by a fresh registration of the scenario input. -/
def wNew : User :=
  ⟨1, "John Doe", "john@example.com", bcryptHash "Password123", Role.user, true, none⟩

/-- A soft-deleted product. -/
def wProd : Product :=
  ⟨11, "Lamp", "A small lamp", 5, "USD", "other", 3, "SKU-1", 9, false⟩

/-- A product store holding only the soft-deleted product. -/
def wPStore : PStore := ⟨[wProd]⟩

/-- A PATCH body renaming the product. -/
def wPatch : ProductPatch := ⟨some "Lamp2", none, none, none, none, none, none, none⟩

/-! ## Helper lemmas -/

/-- A parseable token string is not empty. -/
theorem parseJwt_ne_empty {tok : String} {t : Jwt} (h : parseJwt tok = some t) :
    tok ≠ "" := by
  intro he
  subst he
  simp [parseJwt, jsSplit, splitChar] at h

/-- Dropping the password field really removes the key. -/
theorem password_not_mem_selectNoPassword (d : Doc) :
    "password" ∉ (selectNoPassword d).map Prod.fst := by
  intro hmem
  rcases List.mem_map.mp hmem with ⟨f, hf, hfst⟩
  rcases List.mem_filter.mp hf with ⟨_, hkeep⟩
  simp only [Bool.not_eq_eq_eq_not, Bool.not_true, beq_eq_false_iff_ne] at hkeep
  exact hkeep hfst

/-- The attachment `protect` builds is exactly the user document with the
password field selected away. -/
theorem reqUser_doc_eq_selectNoPassword (u : User) :
    (u.toReqUser).doc = selectNoPassword (userDoc u) := by
  cases h : u.lastLogin <;>
    simp [ReqUser.doc, User.toReqUser, userDoc, selectNoPassword, h]

/-- Characterization of a successful `protect` run: the middleware attached
exactly the password-less projection of a stored user. -/
theorem protect_ok_inversion {s : Store} {secret : String} {now : Nat}
    {req : Request} {r : ReqUser}
    (h : protect s secret now req = .ok r) :
    ∃ u, u ∈ s.users ∧ r = u.toReqUser := by
  unfold protect at h
  split at h
  · simp at h
  · split at h
    · simp at h
    · split at h
      · simp at h
      · rename_i payload _
        split at h
        · simp at h
        · rename_i u hf
          split at h
          · simp at h
          · simp only [Except.ok.injEq] at h
            exact ⟨u, List.mem_of_find?_eq_some hf, h.symm⟩

/-- A store whose pre-write email lookup finds nothing cannot make the
uniqueness-constrained insert fail. -/
theorem createUser_ok_of_findByEmail_none {s : Store} {email : String}
    (newId : Nat) (name password : String)
    (h : s.findByEmail email = none) :
    ∃ s' u', s.createUser newId name email password = .ok (s', u') := by
  unfold Store.findByEmail at h
  rw [List.find?_eq_none] at h
  unfold Store.createUser
  rw [if_neg]
  · exact ⟨_, _, rfl⟩
  · intro hany
    rcases List.any_eq_true.mp hany with ⟨u, hu, hpu⟩
    exact h u hu hpu

/-! ## C1: expired tokens and the protect middleware -/

/-- C1 counterexample: at time 2000, a correctly signed token that expired
at time 1000 and an unexpired token with a wrong signature make `protect`
fail with the one same generic 401 error, so the expired outcome is not a
distinct error kind and is not distinguishable from the bad-signature
outcome. -/
theorem protect_expired_indistinguishable_counterexample :
    protect wStore wSecret 2000 (wReqOf wTokenExpired) = .error notAuthorizedError
    ∧ protect wStore wSecret 2000 (wReqOf wTokenBadSig) = .error notAuthorizedError
    ∧ protect wStore wSecret 2000 (wReqOf wTokenExpired)
      = protect wStore wSecret 2000 (wReqOf wTokenBadSig) := by
  refine ⟨by decide, by decide, by decide⟩

/-- C1 (amended): for every token whose embedded expiry timestamp is in the
past, `protect` fails with the generic 401 Unauthenticated error
('Not authorized to access this route') regardless of signature validity —
the same error a bad signature produces — because the middleware's catch-all
replaces every `jwt.verify` failure before the error handler's distinct
expired-token message could be selected. -/
theorem protect_expired_token_same_generic_401 :
    (∀ (s : Store) (secret : String) (now : Nat) (req : Request)
       (tok : String) (t : Jwt),
       extractToken req.authorization req.cookieToken = some tok →
       parseJwt tok = some t →
       t.payload.exp < now →
       protect s secret now req = .error notAuthorizedError)
    ∧ (∀ (s : Store) (secret : String) (now : Nat) (req : Request)
         (tok : String) (t : Jwt),
         extractToken req.authorization req.cookieToken = some tok →
         parseJwt tok = some t →
         t.sig ≠ mkSig secret t.payload →
         protect s secret now req = .error notAuthorizedError) := by
  constructor
  · intro s secret now req tok t hx hp hexp
    have hne := parseJwt_ne_empty hp
    by_cases hs : (t.sig == mkSig secret t.payload) = true
    · simp [protect, jwtVerify, hx, hp, hne, hs, Nat.le_of_lt hexp]
    · simp [protect, jwtVerify, hx, hp, hne, hs]
  · intro s secret now req tok t hx hp hs
    have hne := parseJwt_ne_empty hp
    have hs' : (t.sig == mkSig secret t.payload) = false := by
      simpa using hs
    simp [protect, jwtVerify, hx, hp, hne, hs']

/-- C1 witness: the amended theorem applied to the concrete expired token. -/
theorem protect_expired_token_same_generic_401_witness :
    protect wStore wSecret 2000 (wReqOf wTokenExpired) = .error notAuthorizedError :=
  protect_expired_token_same_generic_401.1 wStore wSecret 2000
    (wReqOf wTokenExpired) wTokenExpired ⟨wPayload, mkSig wSecret wPayload⟩
    (by decide) (by decide) (by decide)

/-! ## C2: duplicate registration -/

/-- C2 counterexample: registering the scenario email a second time fails
with the message 'User already exists with this email' (status 400), which
is not the claimed 'email already exists'. -/
theorem register_duplicate_message_counterexample :
    register wStore 2 wSecret 604800 false 100 "John Doe" "john@example.com" "Password123"
      = (wStore, .error ⟨"User already exists with this email", 400⟩)
    ∧ "User already exists with this email" ≠ "email already exists" := by
  refine ⟨by decide, by decide⟩

/-- C2 (amended): when an account with the email already exists,
registration fails with the 400 error 'User already exists with this email',
detected by a pre-write email lookup, and the store is unchanged; in that
situation the uniqueness-constrained write is never attempted — once the
lookup finds nothing the insert cannot fail on the unique email index — so
the duplicate-key handler message 'email already exists' is unreachable
from this flow. -/
theorem register_duplicate_email_rejected_before_write :
    (∀ (s : Store) (newId : Nat) (secret : String) (dur : Nat) (isProd : Bool)
       (now : Nat) (name email password : String) (u : User),
       s.findByEmail email = some u →
       register s newId secret dur isProd now name email password
         = (s, .error ⟨"User already exists with this email", 400⟩))
    ∧ (∀ (s : Store) (newId : Nat) (name email password : String),
         s.findByEmail email = none →
         ∃ s' u', s.createUser newId name email password = .ok (s', u'))
    ∧ handleDuplicateKeyError "email" = ⟨"email already exists", 400⟩ := by
  refine ⟨?_, ?_, rfl⟩
  · intro s newId secret dur isProd now name email password u h
    unfold register
    rw [h]
  · intro s newId name email password h
    exact createUser_ok_of_findByEmail_none newId name password h

/-- C2 witness: the amended theorem applied to the concrete store already
holding the scenario email. -/
theorem register_duplicate_email_rejected_before_write_witness :
    register wStore 2 wSecret 604800 false 100 "John Doe" "john@example.com" "Password123"
      = (wStore, .error ⟨"User already exists with this email", 400⟩) :=
  register_duplicate_email_rejected_before_write.1 wStore 2 wSecret 604800 false 100
    "John Doe" "john@example.com" "Password123" wUser (by decide)

/-! ## C3: the authorization gate -/

/-- C3 (confirmed): `authorize` passes a resolved identity through exactly
when its role is a member of the route's declared role set; a route with no
role declaration (no `authorize` stage, modelled by `none`) passes every
authenticated identity; on a role mismatch the pipeline fails with the 403
Forbidden error and the route handler is never invoked (the outcome is the
same for every handler). -/
theorem authorize_role_membership_gate :
    (∀ (roles : List Role) (r : ReqUser),
       authorize roles r = .ok () ↔ r.role ∈ roles)
    ∧ (∀ {α : Type} (s : Store) (secret : String) (now : Nat) (req : Request)
         (u : ReqUser) (roles : List Role) (handler : ReqUser → α),
         protect s secret now req = .ok u → u.role ∈ roles →
         protectedRoute s secret now (some roles) handler req = .ok (handler u))
    ∧ (∀ {α : Type} (s : Store) (secret : String) (now : Nat) (req : Request)
         (u : ReqUser) (roles : List Role) (h₁ h₂ : ReqUser → α),
         protect s secret now req = .ok u → u.role ∉ roles →
         protectedRoute s secret now (some roles) h₁ req = .error (forbiddenError u.role)
         ∧ protectedRoute s secret now (some roles) h₁ req
           = protectedRoute s secret now (some roles) h₂ req)
    ∧ (∀ {α : Type} (s : Store) (secret : String) (now : Nat) (req : Request)
         (u : ReqUser) (handler : ReqUser → α),
         protect s secret now req = .ok u →
         protectedRoute s secret now none handler req = .ok (handler u)) := by
  refine ⟨?_, ?_, ?_, ?_⟩
  · intro roles r
    by_cases hm : r.role ∈ roles <;>
      simp [authorize, List.elem_iff, hm]
  · intro α s secret now req u roles handler hprot hm
    simp [protectedRoute, hprot, authorize, List.elem_iff, hm]
  · intro α s secret now req u roles h₁ h₂ hprot hm
    constructor <;>
      simp [protectedRoute, hprot, authorize, List.elem_iff, hm]
  · intro α s secret now req u handler hprot
    simp [protectedRoute, hprot]

/-- C3 witness: the gate applied to the concrete administrator request on
the admin-only route declaration. -/
theorem authorize_role_membership_gate_witness :
    protectedRoute wStoreAdmin wSecret 100 (some [Role.admin])
      (fun r => r.name) (wReqOf wAdminToken) = .ok "Root" :=
  authorize_role_membership_gate.2.1 wStoreAdmin wSecret 100 (wReqOf wAdminToken)
    wAdmin.toReqUser [Role.admin] (fun r => r.name) (by decide) (by decide)

/-! ## C4: hashed secrets, never serialized -/

/-- C4 (confirmed): the registration write stores the bcrypt digest of the
submitted password (never the clear form), and no operation serializes the
digest outward: a successful `protect` attaches exactly the stored user's
public fields — the user document with the password selected away — and the
user objects in the register, login and get-current-user responses carry no
password field. -/
theorem stored_secret_hashed_never_serialized :
    (∀ (s : Store) (newId : Nat) (nm em pw : String) (s' : Store) (u' : User),
       s.createUser newId nm em pw = .ok (s', u') →
       u'.password = bcryptHash pw ∧ ∀ v ∈ s'.users, v ∈ s.users ∨ v = u')
    ∧ (∀ (s : Store) (secret : String) (now : Nat) (req : Request) (r : ReqUser),
         protect s secret now req = .ok r →
         ∃ u, u ∈ s.users ∧ r = u.toReqUser
           ∧ ReqUser.doc r = selectNoPassword (userDoc u)
           ∧ "password" ∉ (ReqUser.doc r).map Prod.fst)
    ∧ (∀ u : User, "password" ∉ (authUserView u).map Prod.fst)
    ∧ (∀ (s : Store) (r : ReqUser) (d : Doc),
         (getMe s r).2 = some d → "password" ∉ d.map Prod.fst) := by
  refine ⟨?_, ?_, ?_, ?_⟩
  · intro s newId nm em pw s' u' h
    unfold Store.createUser at h
    simp only [] at h
    split at h
    · simp at h
    · simp only [Except.ok.injEq, Prod.mk.injEq] at h
      obtain ⟨hs, hu⟩ := h
      subst hs; subst hu
      refine ⟨rfl, ?_⟩
      intro v hv
      rcases List.mem_append.mp hv with hv | hv
      · exact Or.inl hv
      · exact Or.inr (List.mem_singleton.mp hv)
  · intro s secret now req r h
    obtain ⟨u, hmem, hr⟩ := protect_ok_inversion h
    subst hr
    exact ⟨u, hmem, rfl, reqUser_doc_eq_selectNoPassword u,
      (reqUser_doc_eq_selectNoPassword u) ▸ password_not_mem_selectNoPassword (userDoc u)⟩
  · intro u hmem
    simp [authUserView] at hmem
  · intro s r d h
    cases hf : s.findById r.id with
    | none => simp [getMe, hf] at h
    | some u =>
      simp only [getMe, hf, Option.map_some', Option.some.injEq] at h
      subst h
      exact password_not_mem_selectNoPassword (userDoc u)

/-- C4 witness: the create conjunct applied to the concrete registration of
the scenario account into the empty store. -/
theorem stored_secret_hashed_never_serialized_witness :
    wNew.password = bcryptHash "Password123"
      ∧ ∀ v ∈ (⟨[wNew]⟩ : Store).users, v ∈ (⟨[]⟩ : Store).users ∨ v = wNew :=
  stored_secret_hashed_never_serialized.1 ⟨[]⟩ 1 "John Doe" "john@example.com"
    "Password123" ⟨[wNew]⟩ wNew (by decide)

/-! ## C5: inactive accounts are rejected -/

/-- C5 (confirmed): any request bearing a correctly signed, unexpired token
for a stored account whose inactive flag is set is rejected by `protect`
with a 401 Unauthenticated error, and the protected route pipeline
therefore produces that error for every handler, which is never invoked. -/
theorem protect_rejects_inactive_account :
    ∀ {α : Type} (s : Store) (secret : String) (now : Nat) (req : Request)
      (tok : String) (t : Jwt) (u : User) (roleDecl : Option (List Role))
      (handler : ReqUser → α),
      extractToken req.authorization req.cookieToken = some tok →
      parseJwt tok = some t →
      t.sig = mkSig secret t.payload →
      now < t.payload.exp →
      s.findById t.payload.id = some u →
      u.isActive = false →
      protect s secret now req = .error ⟨"User account is inactive", 401⟩
      ∧ protectedRoute s secret now roleDecl handler req
        = .error ⟨"User account is inactive", 401⟩ := by
  intro α s secret now req tok t u roleDecl handler hx hp hsig hexp hf hact
  have hne := parseJwt_ne_empty hp
  have hprot : protect s secret now req = .error ⟨"User account is inactive", 401⟩ := by
    simp [protect, jwtVerify, hx, hp, hne, hsig, Nat.not_le.mpr hexp, hf, hact]
  exact ⟨hprot, by simp [protectedRoute, hprot]⟩

/-- C5 witness: the theorem applied to the concrete deactivated account and
its valid token. -/
theorem protect_rejects_inactive_account_witness :
    protect wStoreInactive wSecret 100 (wReqOf wInactiveToken)
      = .error ⟨"User account is inactive", 401⟩ :=
  (protect_rejects_inactive_account wStoreInactive wSecret 100 (wReqOf wInactiveToken)
    wInactiveToken ⟨wInactivePayload, mkSig wSecret wInactivePayload⟩ wInactive
    none (fun r => r.name) (by decide) (by decide) (by decide) (by decide)
    (by decide) (by decide)).1

/-! ## C6: login indistinguishability -/

/-- C6 counterexample: against a store holding only the deactivated account,
a login with that stored email and a wrong password fails with 'Account is
inactive', while a login with an unknown email fails with 'Invalid
credentials' — the two runs are distinguishable, revealing that the stored
email exists. -/
theorem login_indistinguishability_counterexample :
    login wStoreInactive wSecret 604800 false 100 "bob@example.com" "WrongPw1"
      = (wStoreInactive, .error ⟨"Account is inactive", 401⟩)
    ∧ login wStoreInactive wSecret 604800 false 100 "ghost@example.com" "WrongPw1"
      = (wStoreInactive, .error invalidCredentialsError)
    ∧ (⟨"Account is inactive", 401⟩ : AppError) ≠ invalidCredentialsError := by
  refine ⟨by decide, by decide, by decide⟩

/-- C6 (amended): for logins with non-empty fields, an unknown email and a
stored active account with a wrong password both fail with the identical
401 'Invalid credentials' error and leave the store unchanged, so those two
runs are indistinguishable; the indistinguishability does not extend to
deactivated stored accounts, whose distinct 'Account is inactive' message
reveals that the email exists. -/
theorem login_wrong_password_indistinguishable_for_active :
    ∀ (s : Store) (secret : String) (dur : Nat) (isProd : Bool) (now : Nat)
      (e₁ p₁ e₂ p₂ : String) (u : User),
      e₁ ≠ "" → p₁ ≠ "" → e₂ ≠ "" → p₂ ≠ "" →
      s.findByEmail e₁ = none →
      s.findByEmail e₂ = some u → u.isActive = true →
      bcryptCompare p₂ u.password = false →
      login s secret dur isProd now e₁ p₁ = (s, .error invalidCredentialsError)
      ∧ login s secret dur isProd now e₂ p₂ = (s, .error invalidCredentialsError)
      ∧ login s secret dur isProd now e₁ p₁ = login s secret dur isProd now e₂ p₂ := by
  intro s secret dur isProd now e₁ p₁ e₂ p₂ u he₁ hp₁ he₂ hp₂ hn hs hact hcmp
  have h₁ : login s secret dur isProd now e₁ p₁ = (s, .error invalidCredentialsError) := by
    simp [login, he₁, hp₁, hn]
  have h₂ : login s secret dur isProd now e₂ p₂ = (s, .error invalidCredentialsError) := by
    simp [login, he₂, hp₂, hs, hact, hcmp]
  exact ⟨h₁, h₂, h₁.trans h₂.symm⟩

/-- C6 witness: the amended theorem applied to the concrete store with the
active scenario account, an unknown email and a wrong password. -/
theorem login_wrong_password_indistinguishable_for_active_witness :
    login wStore wSecret 604800 false 100 "ghost@example.com" "Whatever1"
      = (wStore, .error invalidCredentialsError)
    ∧ login wStore wSecret 604800 false 100 "john@example.com" "WrongPw1"
      = (wStore, .error invalidCredentialsError)
    ∧ login wStore wSecret 604800 false 100 "ghost@example.com" "Whatever1"
      = login wStore wSecret 604800 false 100 "john@example.com" "WrongPw1" :=
  login_wrong_password_indistinguishable_for_active wStore wSecret 604800 false 100
    "ghost@example.com" "Whatever1" "john@example.com" "WrongPw1" wUser
    (by decide) (by decide) (by decide) (by decide) (by decide) (by decide)
    (by decide) (by decide)

/-! ## C7: token location and precedence -/

/-- C7 (confirmed): when the Authorization header is bearer-style and
carries a token, extraction uses the header token whatever the cookie holds;
the cookie is consulted exactly when no bearer-style header is present; and
when extraction yields nothing, `protect` fails with the 401 Unauthenticated
error. -/
theorem token_extraction_header_precedence :
    (∀ (h : String) (c : Option String) (t : String),
       jsStartsWith h "Bearer" = true → (jsSplit h ' ')[1]? = some t →
       extractToken (some h) c = some t)
    ∧ (∀ (h : String) (c : Option String),
         jsStartsWith h "Bearer" = true →
         extractToken (some h) c = (jsSplit h ' ')[1]?)
    ∧ (∀ (h : String) (c : Option String),
         jsStartsWith h "Bearer" = false →
         extractToken (some h) c = c)
    ∧ (∀ c : Option String, extractToken none c = c)
    ∧ (∀ (s : Store) (secret : String) (now : Nat) (req : Request),
         extractToken req.authorization req.cookieToken = none →
         protect s secret now req = .error notAuthorizedError) := by
  refine ⟨?_, ?_, ?_, ?_, ?_⟩
  · intro h c t hb ht
    simp [extractToken, hb, ht]
  · intro h c hb
    simp [extractToken, hb]
  · intro h c hb
    simp [extractToken, hb]
  · intro c
    rfl
  · intro s secret now req hx
    simp [protect, hx]

/-- C7 witness: a request carrying both a bearer header and a cookie uses
the header token. -/
theorem token_extraction_header_precedence_witness :
    extractToken (some "Bearer headertok") (some "cookietok") = some "headertok" :=
  token_extraction_header_precedence.1 "Bearer headertok" (some "cookietok")
    "headertok" (by decide) (by decide)

/-! ## C8: logout idempotence -/

/-- C8 (confirmed): logout always returns the store unchanged together with
the constant cleared-cookie result — the token cookie overwritten with the
placeholder value expiring 10 seconds out and a 200 success body — so
repeating it yields the same result, and token verification against the
store is unaffected (the token itself is not invalidated). -/
theorem logout_idempotent_stateless :
    ∀ s : Store,
      logout s = (s, logoutCookie, logoutResponse)
      ∧ (logout (logout s).1).2 = (logout s).2
      ∧ logoutCookie.value = "none"
      ∧ logoutCookie.expiresOffsetMs = 10 * 1000
      ∧ ∀ (secret : String) (now : Nat) (req : Request),
          protect (logout s).1 secret now req = protect s secret now req := by
  intro s
  exact ⟨rfl, rfl, rfl, rfl, fun _ _ _ => rfl⟩

/-! ## C9: optional authentication never fails -/

/-- C9 (confirmed): `optionalAuth` never produces an error response — for
every request it proceeds with some attachment; an absent token or a failing
verification attaches nothing; and a valid token for a stored account
attaches that account's identity with no inactive-flag check, so a
deactivated account's identity can be attached. -/
theorem optionalAuth_never_errors_ignores_inactive :
    (∀ (s : Store) (secret : String) (now : Nat) (req : Request),
       ∃ att, optionalAuth s secret now req = .ok att)
    ∧ (∀ (s : Store) (secret : String) (now : Nat) (req : Request),
         extractToken req.authorization req.cookieToken = none →
         optionalAuth s secret now req = .ok none)
    ∧ (∀ (s : Store) (secret : String) (now : Nat) (req : Request)
         (tok : String) (e : JwtError),
         extractToken req.authorization req.cookieToken = some tok → tok ≠ "" →
         jwtVerify secret now tok = .error e →
         optionalAuth s secret now req = .ok none)
    ∧ (∀ (s : Store) (secret : String) (now : Nat) (req : Request)
         (tok : String) (t : Jwt) (u : User),
         extractToken req.authorization req.cookieToken = some tok →
         parseJwt tok = some t →
         t.sig = mkSig secret t.payload →
         now < t.payload.exp →
         s.findById t.payload.id = some u →
         optionalAuth s secret now req = .ok (some u.toReqUser)) := by
  refine ⟨?_, ?_, ?_, ?_⟩
  · intro s secret now req
    unfold optionalAuth
    split
    · exact ⟨none, rfl⟩
    · split
      · exact ⟨none, rfl⟩
      · split
        · exact ⟨none, rfl⟩
        · exact ⟨_, rfl⟩
  · intro s secret now req hx
    simp [optionalAuth, hx]
  · intro s secret now req tok e hx hne hv
    simp [optionalAuth, hx, hne, hv]
  · intro s secret now req tok t u hx hp hsig hexp hf
    have hne := parseJwt_ne_empty hp
    have hv : jwtVerify secret now tok = .ok t.payload := by
      simp [jwtVerify, hp, hsig, Nat.not_le.mpr hexp]
    simp [optionalAuth, hx, hne, hv, hf]

/-- C9 witness: the valid token of the concrete deactivated account gets
that account attached by `optionalAuth`. -/
theorem optionalAuth_never_errors_ignores_inactive_witness :
    optionalAuth wStoreInactive wSecret 100 (wReqOf wInactiveToken)
      = .ok (some wInactive.toReqUser) :=
  optionalAuth_never_errors_ignores_inactive.2.2.2 wStoreInactive wSecret 100
    (wReqOf wInactiveToken) wInactiveToken
    ⟨wInactivePayload, mkSig wSecret wInactivePayload⟩ wInactive
    (by decide) (by decide) (by decide) (by decide) (by decide)

/-! ## C10: soft-deleted products -/

/-- C10 (confirmed): a product whose `isActive` flag is false is reported
NotFound by the single-product read, yet update still applies the requested
changes and delete still succeeds with the success message, re-setting
`isActive` to false; with unique product ids, deleting an already
soft-deleted product leaves the store unchanged (idempotence). -/
theorem soft_deleted_product_hidden_but_mutable :
    ∀ (s : PStore) (id : Nat) (p : Product) (b : ProductPatch),
      s.findById id = some p → p.isActive = false →
      getProduct s id = .error productNotFoundError
      ∧ updateProduct s id b
        = (s.updateById id (fun q => q.applyPatch b), .ok (p.applyPatch b))
      ∧ deleteProduct s id
        = (s.updateById id (fun q => { q with isActive := false }),
           .ok "Product deleted successfully")
      ∧ ((s.products.map Product.id).Nodup → (deleteProduct s id).1 = s) := by
  intro s id p b hf hins
  refine ⟨?_, ?_, ?_, ?_⟩
  · simp [getProduct, hf, hins]
  · simp [updateProduct, hf]
  · simp [deleteProduct, hf]
  · intro hnodup
    have hf' : s.products.find? (fun q => q.id == id) = some p := hf
    have hp_mem : p ∈ s.products := List.mem_of_find?_eq_some hf'
    have hp_id : (p.id == id) = true := by simpa using List.find?_some hf'
    have hmap : ∀ q ∈ s.products,
        (if q.id == id then { q with isActive := false } else q) = q := by
      intro q hq
      by_cases hqi : (q.id == id) = true
      · have hq_id : q.id = id := by simpa using hqi
        have hp_id' : p.id = id := by simpa using hp_id
        have hq_eq : q = p :=
          List.inj_on_of_nodup_map hnodup hq hp_mem (hq_id.trans hp_id'.symm)
        subst hq_eq
        rw [if_pos hqi]
        cases q
        simp_all
      · rw [if_neg hqi]
    simp only [deleteProduct, hf]
    show PStore.updateById s id (fun q => { q with isActive := false }) = s
    unfold PStore.updateById
    cases s with
    | mk l =>
      simp only [PStore.mk.injEq]
      have := List.map_congr_left hmap
      simpa using this

/-- C10 witness: the theorem applied to the concrete soft-deleted product. -/
theorem soft_deleted_product_hidden_but_mutable_witness :
    getProduct wPStore 11 = .error productNotFoundError :=
  (soft_deleted_product_hidden_but_mutable wPStore 11 wProd wPatch
    (by decide) (by decide)).1

end ExpressAuth
